import Mathlib

/-!
Verification of the request-to-query mapping and response contract of the
`services/api/app.py` HTTP service (users/posts CRUD over a relational store).

The embedding translates each Flask handler into a pure Lean function over an
explicit store state (`DB`).  Fallibility of the external store (connection
acquisition failure, generic query failure) is modelled by a `Faults`
parameter; integrity failures (uniqueness violation on user insert, foreign
key violation on post insert) are derived from the store state itself, as the
database engine would.  Every handler result records, besides the HTTP
response and the resulting store state, whether a connection was successfully
acquired during the request and whether `conn.close()` ran before the
response was returned — the Python code closes the connection inside the
`try` block with no `finally`, so these flags model the exact lines executed.
-/

/-- JSON values, as produced by `flask.jsonify` and `request.get_json()`. -/
inductive Json where
  | null : Json
  | bool : Bool → Json
  | num : Int → Json
  | str : String → Json
  | arr : List Json → Json
  | obj : List (String × Json) → Json
  deriving Repr

mutual

/-- Structural equality of JSON values (Python `==` on decoded JSON). -/
def Json.beq : Json → Json → Bool
  | .null, .null => true
  | .bool a, .bool b => a == b
  | .num a, .num b => a == b
  | .str a, .str b => a == b
  | .arr as, .arr bs => Json.beqList as bs
  | .obj fs, .obj gs => Json.beqObj fs gs
  | _, _ => false

/-- Elementwise equality of JSON arrays. -/
def Json.beqList : List Json → List Json → Bool
  | [], [] => true
  | a :: as, b :: bs => Json.beq a b && Json.beqList as bs
  | _, _ => false

/-- Fieldwise equality of JSON objects. -/
def Json.beqObj : List (String × Json) → List (String × Json) → Bool
  | [], [] => true
  | (k, v) :: fs, (k', v') :: gs => k == k' && Json.beq v v' && Json.beqObj fs gs
  | _, _ => false

end

instance : BEq Json := ⟨Json.beq⟩

/-- A row of the `users` table: `id`, `username`, `email`, `created_at`.
`username` and `email` hold the JSON values supplied at creation time;
`id` and `created_at` are server-generated. -/
structure UserRow where
  id : Nat
  username : Json
  email : Json
  created_at : Nat
  deriving Repr

/-- A row of the `posts` table: `id`, `user_id`, `title`, `content`,
`status`, `created_at`.  `user_id`, `title`, `content`, `status` hold the
JSON values supplied at creation time. -/
structure PostRow where
  id : Nat
  user_id : Json
  title : Json
  content : Json
  status : Json
  created_at : Nat
  deriving Repr

/-- The state of the relational store: the two tables, the sequence counters
feeding the server-generated identifiers, and the clock feeding the
server-generated creation timestamps. -/
structure DB where
  users : List UserRow
  posts : List PostRow
  nextUserId : Nat
  nextPostId : Nat
  now : Nat
  deriving Repr

/-- External-store fault injection for one request: `connect` is the error
message raised by `psycopg2.connect` when acquisition fails, `exec` the
message of a generic (non-integrity) error raised by `cur.execute`. -/
structure Faults where
  connect : Option String
  exec : Option String
  deriving Repr

/-- The fault-free store environment. -/
def noFaults : Faults := ⟨none, none⟩

/-- An HTTP response: status code and JSON body. -/
structure Response where
  status : Nat
  body : Json
  deriving Repr

/-- The full outcome of running one handler: the response, the store state
after the request, and the connection bookkeeping (`connAcquired`: a
connection was successfully obtained during the request; `connReleased`:
`conn.close()` executed on it before the response was returned). -/
structure HResult where
  resp : Response
  db : DB
  connAcquired : Bool
  connReleased : Bool
  deriving Repr

/-- Dictionary lookup on a JSON object payload (first binding wins, as in a
Python dict). -/
def lookupKey : List (String × Json) → String → Option Json
  | [], _ => none
  | (k, v) :: rest, key => if k = key then some v else lookupKey rest key

/-- Python's `key in data`. -/
def hasKey (data : List (String × Json)) (k : String) : Bool :=
  (lookupKey data k).isSome

/-- The shared validation shape of both create handlers:
`if not data or k1 not in data or k2 not in data`.  `none` models a body
that is not JSON (`request.get_json()` returned `None`); an empty object is
falsy in Python, hence also invalid. -/
def invalidPayload2 (payload : Option (List (String × Json))) (k1 k2 : String) : Bool :=
  match payload with
  | none => true
  | some data => data.isEmpty || !(hasKey data k1) || !(hasKey data k2)

/-- `jsonify({'error': msg})`. -/
def errBody (msg : String) : Json := Json.obj [("error", Json.str msg)]

/-- The row shape produced by `SELECT id, username, email, created_at FROM users`
under `RealDictCursor`. -/
def userReadRow (u : UserRow) : Json :=
  Json.obj [("id", Json.num u.id), ("username", u.username),
            ("email", u.email), ("created_at", Json.num u.created_at)]

/-- `GET /health`: acquire a connection, close it at once, no query. -/
def health (f : Faults) (db : DB) : HResult :=
  match f.connect with
  | some msg =>
      ⟨⟨503, Json.obj [("status", Json.str "unhealthy"), ("error", Json.str msg)]⟩,
       db, false, false⟩
  | none =>
      ⟨⟨200, Json.obj [("status", Json.str "healthy"), ("database", Json.str "connected")]⟩,
       db, true, true⟩

/-- Ordering used by `SELECT ... FROM users ORDER BY id`. -/
def userIdLe (a b : UserRow) : Prop := a.id ≤ b.id

instance : DecidableRel userIdLe := fun a b => inferInstanceAs (Decidable (a.id ≤ b.id))

/-- `GET /users`: list all users ordered by identifier ascending. -/
def list_users (f : Faults) (db : DB) : HResult :=
  match f.connect with
  | some msg => ⟨⟨500, errBody msg⟩, db, false, false⟩
  | none =>
    match f.exec with
    | some msg => ⟨⟨500, errBody msg⟩, db, true, false⟩
    | none =>
        ⟨⟨200, Json.arr ((List.insertionSort userIdLe db.users).map userReadRow)⟩,
         db, true, true⟩

/-- `GET /users/<id>`: fetch one user by identifier. -/
def get_user (user_id : Nat) (f : Faults) (db : DB) : HResult :=
  match f.connect with
  | some msg => ⟨⟨500, errBody msg⟩, db, false, false⟩
  | none =>
    match f.exec with
    | some msg => ⟨⟨500, errBody msg⟩, db, true, false⟩
    | none =>
        match db.users.find? (fun u => u.id == user_id) with
        | some u => ⟨⟨200, userReadRow u⟩, db, true, true⟩
        | none => ⟨⟨404, errBody "User not found"⟩, db, true, true⟩

/-- `POST /users`: validate that `username` and `email` are present, insert
the user, translate a uniqueness violation (`psycopg2.IntegrityError`) to a
409 conflict and any other store failure to a 500.  The `except` branches
return without running `conn.close()` — the close calls sit inside the `try`
before the `return`, with no `finally`. -/
def create_user (payload : Option (List (String × Json))) (f : Faults) (db : DB) : HResult :=
  if invalidPayload2 payload "username" "email" then
    ⟨⟨400, errBody "username and email are required"⟩, db, false, false⟩
  else
    match f.connect with
    | some msg => ⟨⟨500, errBody msg⟩, db, false, false⟩
    | none =>
      match f.exec with
      | some msg => ⟨⟨500, errBody msg⟩, db, true, false⟩
      | none =>
          let data := payload.getD []
          let username := (lookupKey data "username").getD Json.null
          let email := (lookupKey data "email").getD Json.null
          if db.users.any (fun u => u.username == username || u.email == email) then
            ⟨⟨409, errBody "Username or email already exists"⟩, db, true, false⟩
          else
            let row : UserRow := ⟨db.nextUserId, username, email, db.now⟩
            ⟨⟨201, userReadRow row⟩,
             { db with users := db.users ++ [row],
                       nextUserId := db.nextUserId + 1, now := db.now + 1 },
             true, true⟩

/-- Ordering used by `ORDER BY p.created_at DESC` (no tie-break: the model
resolves the store's freedom among equal timestamps by keeping table order,
via a stable sort). -/
def createdAtDesc (a b : PostRow) : Prop := b.created_at ≤ a.created_at

instance : DecidableRel createdAtDesc :=
  fun a b => inferInstanceAs (Decidable (b.created_at ≤ a.created_at))

instance : IsTotal PostRow createdAtDesc :=
  ⟨fun a b => show b.created_at ≤ a.created_at ∨ a.created_at ≤ b.created_at from
    Nat.le_total b.created_at a.created_at⟩

instance : IsTrans PostRow createdAtDesc :=
  ⟨fun _ _ _ hab hbc => Nat.le_trans hbc hab⟩

/-- The `LEFT JOIN users u ON p.user_id = u.id` resolution of one post's
owner row. -/
def joinOwner (users : List UserRow) (p : PostRow) : Option UserRow :=
  users.find? (fun u => p.user_id == Json.num u.id)

/-- The row shape produced by
`SELECT p.id, p.title, p.content, p.status, p.created_at, p.user_id, u.username`
with the left join: `username` is NULL when the owner does not resolve. -/
def postReadRow (users : List UserRow) (p : PostRow) : Json :=
  Json.obj [("id", Json.num p.id), ("title", p.title), ("content", p.content),
            ("status", p.status), ("created_at", Json.num p.created_at),
            ("user_id", p.user_id),
            ("username", match joinOwner users p with
                         | some u => u.username
                         | none => Json.null)]

/-- `GET /posts`: all posts left-joined to users, newest first. -/
def list_posts (f : Faults) (db : DB) : HResult :=
  match f.connect with
  | some msg => ⟨⟨500, errBody msg⟩, db, false, false⟩
  | none =>
    match f.exec with
    | some msg => ⟨⟨500, errBody msg⟩, db, true, false⟩
    | none =>
        ⟨⟨200, Json.arr ((List.insertionSort createdAtDesc db.posts).map
                          (postReadRow db.users))⟩,
         db, true, true⟩

/-- `GET /posts/<id>`: one post by identifier, with the same join. -/
def get_post (post_id : Nat) (f : Faults) (db : DB) : HResult :=
  match f.connect with
  | some msg => ⟨⟨500, errBody msg⟩, db, false, false⟩
  | none =>
    match f.exec with
    | some msg => ⟨⟨500, errBody msg⟩, db, true, false⟩
    | none =>
        match db.posts.find? (fun p => p.id == post_id) with
        | some p => ⟨⟨200, postReadRow db.users p⟩, db, true, true⟩
        | none => ⟨⟨404, errBody "Post not found"⟩, db, true, true⟩

/-- The message carried by the store's foreign-key `IntegrityError` when a
post insert references a user identifier with no matching `users` row; the
store defines the exact text, which the model abstracts as this constant. -/
def fkViolationMessage : String :=
  "insert or update on table posts violates foreign key constraint"

/-- The row shape produced by the create-post
`RETURNING id, user_id, title, content, status, created_at` (no join, no
`username` field). -/
def postCreateRow (p : PostRow) : Json :=
  Json.obj [("id", Json.num p.id), ("user_id", p.user_id), ("title", p.title),
            ("content", p.content), ("status", p.status),
            ("created_at", Json.num p.created_at)]

/-- `POST /posts`: validate that `user_id` and `title` are present, default
`content` to `""` and `status` to `"draft"`, insert.  The handler catches
every exception uniformly as a 500: the store's foreign-key rejection (when
`user_id` resolves to no user) is not special-cased. -/
def create_post (payload : Option (List (String × Json))) (f : Faults) (db : DB) : HResult :=
  if invalidPayload2 payload "user_id" "title" then
    ⟨⟨400, errBody "user_id and title are required"⟩, db, false, false⟩
  else
    match f.connect with
    | some msg => ⟨⟨500, errBody msg⟩, db, false, false⟩
    | none =>
      match f.exec with
      | some msg => ⟨⟨500, errBody msg⟩, db, true, false⟩
      | none =>
          let data := payload.getD []
          let uid := (lookupKey data "user_id").getD Json.null
          let title := (lookupKey data "title").getD Json.null
          let content := (lookupKey data "content").getD (Json.str "")
          let status := (lookupKey data "status").getD (Json.str "draft")
          if db.users.any (fun u => uid == Json.num u.id) then
            let row : PostRow := ⟨db.nextPostId, uid, title, content, status, db.now⟩
            ⟨⟨201, postCreateRow row⟩,
             { db with posts := db.posts ++ [row],
                       nextPostId := db.nextPostId + 1, now := db.now + 1 },
             true, true⟩
          else
            ⟨⟨500, errBody fkViolationMessage⟩, db, true, false⟩

/-- `GET /users/<id>/posts`: the user's posts left-joined to users, newest
first; no check that the user itself exists. -/
def get_user_posts (user_id : Nat) (f : Faults) (db : DB) : HResult :=
  match f.connect with
  | some msg => ⟨⟨500, errBody msg⟩, db, false, false⟩
  | none =>
    match f.exec with
    | some msg => ⟨⟨500, errBody msg⟩, db, true, false⟩
    | none =>
        ⟨⟨200, Json.arr ((List.insertionSort createdAtDesc
                           (db.posts.filter (fun p => p.user_id == Json.num user_id))).map
                          (postReadRow db.users))⟩,
         db, true, true⟩

/-- Object field access on a JSON value. -/
def Json.getField (j : Json) (k : String) : Option Json :=
  match j with
  | .obj l => lookupKey l k
  | _ => none

/-- The keys of a JSON object, in order. -/
def Json.objKeys (j : Json) : List String :=
  match j with
  | .obj l => l.map Prod.fst
  | _ => []

/-- A payload with a present key is a non-empty dict, hence truthy. -/
theorem hasKey_isEmpty_false {data : List (String × Json)} {k : String}
    (h : hasKey data k = true) : data.isEmpty = false := by
  cases data with
  | nil => simp [hasKey, lookupKey] at h
  | cons a rest => rfl

/-- Concrete fixture: the user `alice`, identifier 1. -/
def aliceRow : UserRow := ⟨1, Json.str "alice", Json.str "alice@example.com", 0⟩

/-- Concrete fixture: a post owned by user 1. -/
def post1 : PostRow :=
  ⟨1, Json.num 1, Json.str "hello", Json.str "", Json.str "draft", 3⟩

/-- Concrete fixture: a store holding only `alice`. -/
def dbOneUser : DB := ⟨[aliceRow], [], 2, 1, 5⟩

/-- Concrete fixture: a store holding `alice` and one post of hers. -/
def dbUserPost : DB := ⟨[aliceRow], [post1], 2, 2, 9⟩

/-- C10: every GET handler (list-users, get-user, list-posts, get-post,
get-posts-by-user) leaves the store state unchanged, on every fault path as
well as on success: read requests issue only SELECT statements and never
commit. -/
theorem read_handlers_preserve_store (f : Faults) (db : DB) (uid pid : Nat) :
    (list_users f db).db = db ∧ (get_user uid f db).db = db ∧
    (list_posts f db).db = db ∧ (get_post pid f db).db = db ∧
    (get_user_posts uid f db).db = db := by
  obtain ⟨c, e⟩ := f
  refine ⟨?_, ?_, ?_, ?_, ?_⟩ <;> cases c <;> cases e <;>
    simp [list_users, get_user, list_posts, get_post, get_user_posts]
  · cases db.users.find? (fun u => u.id == uid) <;> rfl
  · cases db.posts.find? (fun p => p.id == pid) <;> rfl

/-- C8: the health check acquires a connection and releases it immediately
without executing any query: with acquisition succeeding it answers 200
`{"status": "healthy", "database": "connected"}`; with acquisition failing it
answers 503 with `"status": "unhealthy"` and the failure message under
`"error"`; its outcome never depends on the query-execution fault and the
store is untouched. -/
theorem health_check_contract (db : DB) (e : Option String) (msg : String) :
    health ⟨none, e⟩ db =
      ⟨⟨200, Json.obj [("status", Json.str "healthy"),
                       ("database", Json.str "connected")]⟩, db, true, true⟩ ∧
    health ⟨some msg, e⟩ db =
      ⟨⟨503, Json.obj [("status", Json.str "unhealthy"),
                       ("error", Json.str msg)]⟩, db, false, false⟩ ∧
    (∀ f : Faults, health f db = health ⟨f.connect, none⟩ db ∧ (health f db).db = db) := by
  refine ⟨rfl, rfl, fun f => ?_⟩
  obtain ⟨c, e'⟩ := f
  cases c <;> exact ⟨rfl, rfl⟩

/-- C1 (defect evidence): when a store call raises after the connection was
acquired, the handler answers without ever running `conn.close()` — the
close calls sit inside the `try` block with no `finally`, so the error paths
skip them.  Shown on `get_user` with a failing SELECT (500 response, the
connection acquired but not released) and on `create_user` with a uniqueness
violation (409 response, connection acquired but not released). -/
theorem store_error_leaks_connection :
    (get_user 1 ⟨none, some "connection reset"⟩ dbOneUser).resp.status = 500 ∧
    (get_user 1 ⟨none, some "connection reset"⟩ dbOneUser).connAcquired = true ∧
    (get_user 1 ⟨none, some "connection reset"⟩ dbOneUser).connReleased = false ∧
    (create_user (some [("username", Json.str "alice"), ("email", Json.str "b@c")])
        noFaults dbOneUser).resp.status = 409 ∧
    (create_user (some [("username", Json.str "alice"), ("email", Json.str "b@c")])
        noFaults dbOneUser).connAcquired = true ∧
    (create_user (some [("username", Json.str "alice"), ("email", Json.str "b@c")])
        noFaults dbOneUser).connReleased = false :=
  ⟨rfl, rfl, rfl, rfl, rfl, rfl⟩

/-- C5: an identifier lookup answers 200 with the matching record when a row
matches, and 404 with the fixed message naming the resource kind — `User not
found` for users, `Post not found` for posts — when none does. -/
theorem lookup_200_found_404_missing (db : DB) (uid uid' pid pid' : Nat)
    (u : UserRow) (p : PostRow)
    (hu : db.users.find? (fun r => r.id == uid) = some u)
    (hu' : db.users.find? (fun r => r.id == uid') = none)
    (hp : db.posts.find? (fun r => r.id == pid) = some p)
    (hp' : db.posts.find? (fun r => r.id == pid') = none) :
    (get_user uid noFaults db).resp = ⟨200, userReadRow u⟩ ∧
    (get_user uid' noFaults db).resp = ⟨404, errBody "User not found"⟩ ∧
    (get_post pid noFaults db).resp = ⟨200, postReadRow db.users p⟩ ∧
    (get_post pid' noFaults db).resp = ⟨404, errBody "Post not found"⟩ := by
  refine ⟨?_, ?_, ?_, ?_⟩ <;> simp [get_user, get_post, noFaults, hu, hu', hp, hp']

/-- C5 witness: on a store with user 1 and post 1, identifier 1 is found and
identifier 2 yields the resource-specific 404. -/
theorem lookup_200_found_404_missing_witness :
    (get_user 1 noFaults dbUserPost).resp = ⟨200, userReadRow aliceRow⟩ ∧
    (get_user 2 noFaults dbUserPost).resp = ⟨404, errBody "User not found"⟩ ∧
    (get_post 1 noFaults dbUserPost).resp = ⟨200, postReadRow dbUserPost.users post1⟩ ∧
    (get_post 2 noFaults dbUserPost).resp = ⟨404, errBody "Post not found"⟩ :=
  lookup_200_found_404_missing dbUserPost 1 2 1 2 aliceRow post1 rfl rfl rfl rfl

/-- C3: create-user rejects with 400 before acquiring any connection and
without touching the store whenever the key `username` or the key `email` is
absent from the payload; conversely any payload carrying both keys — even
with empty-string values — passes validation, so the outcome is never a
400. -/
theorem create_user_validation_absence (dmiss dboth : List (String × Json))
    (f : Faults) (db : DB)
    (hmiss : hasKey dmiss "username" = false ∨ hasKey dmiss "email" = false)
    (hb1 : hasKey dboth "username" = true) (hb2 : hasKey dboth "email" = true) :
    create_user (some dmiss) f db =
      ⟨⟨400, errBody "username and email are required"⟩, db, false, false⟩ ∧
    (create_user (some dboth) f db).resp.status ≠ 400 := by
  constructor
  · have hinv : invalidPayload2 (some dmiss) "username" "email" = true := by
      simp only [invalidPayload2, Bool.or_eq_true]
      rcases hmiss with h | h
      · exact Or.inl (Or.inr (by simp [h]))
      · exact Or.inr (by simp [h])
    simp [create_user, hinv]
  · have hinv : invalidPayload2 (some dboth) "username" "email" = false := by
      simp [invalidPayload2, hasKey_isEmpty_false hb1, hb1, hb2]
    obtain ⟨c, e⟩ := f
    cases c <;> cases e <;> simp [create_user, hinv]
    split <;> simp

/-- C3 witness: a payload lacking `email` is rejected with 400 and no store
change; a payload with both keys bound to empty strings passes validation
(here it proceeds all the way to a 201). -/
theorem create_user_validation_absence_witness :
    create_user (some [("username", Json.str "alice")]) noFaults dbOneUser =
      ⟨⟨400, errBody "username and email are required"⟩, dbOneUser, false, false⟩ ∧
    (create_user (some [("username", Json.str ""), ("email", Json.str "")])
        noFaults dbOneUser).resp.status ≠ 400 :=
  create_user_validation_absence [("username", Json.str "alice")]
    [("username", Json.str ""), ("email", Json.str "")] noFaults dbOneUser
    (Or.inr rfl) rfl rfl

/-- C2: when the insert of a valid create-user payload hits the uniqueness
constraint (some existing row already has the requested username or email),
the response is 409 with the fixed body
`{"error": "Username or email already exists"}` and the store is unchanged;
a generic store failure on the same payload instead takes the distinct 500
path carrying the underlying message. -/
theorem create_user_duplicate_conflict (data : List (String × Json)) (db : DB)
    (msg : String)
    (h1 : hasKey data "username" = true) (h2 : hasKey data "email" = true)
    (hdup : db.users.any (fun u =>
        u.username == (lookupKey data "username").getD Json.null ||
        u.email == (lookupKey data "email").getD Json.null) = true) :
    (create_user (some data) noFaults db).resp =
      ⟨409, Json.obj [("error", Json.str "Username or email already exists")]⟩ ∧
    (create_user (some data) noFaults db).db = db ∧
    (create_user (some data) ⟨none, some msg⟩ db).resp = ⟨500, errBody msg⟩ := by
  have hinv : invalidPayload2 (some data) "username" "email" = false := by
    simp [invalidPayload2, hasKey_isEmpty_false h1, h1, h2]
  refine ⟨?_, ?_, ?_⟩ <;> simp [create_user, hinv, noFaults, hdup, errBody]

/-- C2 witness: re-creating `alice` (fresh email, duplicate username) on a
store that already holds her yields the 409 conflict and leaves the store
unchanged, while a generic query failure yields a 500 with its own
message. -/
theorem create_user_duplicate_conflict_witness :
    (create_user (some [("username", Json.str "alice"), ("email", Json.str "new@example.com")])
        noFaults dbOneUser).resp =
      ⟨409, Json.obj [("error", Json.str "Username or email already exists")]⟩ ∧
    (create_user (some [("username", Json.str "alice"), ("email", Json.str "new@example.com")])
        noFaults dbOneUser).db = dbOneUser ∧
    (create_user (some [("username", Json.str "alice"), ("email", Json.str "new@example.com")])
        ⟨none, some "query failed"⟩ dbOneUser).resp = ⟨500, errBody "query failed"⟩ :=
  create_user_duplicate_conflict
    [("username", Json.str "alice"), ("email", Json.str "new@example.com")]
    dbOneUser "query failed" rfl rfl rfl

/-- C7: get-posts-by-user answers 200 for every user identifier on every
store state — no check that the user exists — with the (possibly empty)
list of that user's posts; zero matching posts yield `[]` with 200, never a
404. -/
theorem get_user_posts_empty_is_success (uid : Nat) (db : DB) :
    (get_user_posts uid noFaults db).resp.status = 200 ∧
    (get_user_posts uid noFaults db).resp.body =
      Json.arr ((List.insertionSort createdAtDesc
        (db.posts.filter (fun p => p.user_id == Json.num uid))).map
        (postReadRow db.users)) ∧
    (db.posts.filter (fun p => p.user_id == Json.num uid) = [] →
      (get_user_posts uid noFaults db).resp.body = Json.arr []) := by
  refine ⟨rfl, rfl, fun h => ?_⟩
  simp [get_user_posts, noFaults, h]

/-- C7 witness: user identifier 7 names no user and owns no posts, yet the
result is 200 with the empty list. -/
theorem get_user_posts_empty_is_success_witness :
    (get_user_posts 7 noFaults dbOneUser).resp.status = 200 ∧
    (get_user_posts 7 noFaults dbOneUser).resp.body = Json.arr [] :=
  ⟨(get_user_posts_empty_is_success 7 dbOneUser).1,
   (get_user_posts_empty_is_success 7 dbOneUser).2.2 rfl⟩

/-- C4: a valid create-post payload with `content` and `status` absent is
inserted with content defaulted to `""` and status defaulted to `"draft"`;
the 201 body carries exactly the keys `id`, `user_id`, `title`, `content`,
`status`, `created_at` — in particular no denormalized `username`. -/
theorem create_post_defaults_and_shape (data : List (String × Json)) (db : DB)
    (h1 : hasKey data "user_id" = true) (h2 : hasKey data "title" = true)
    (hc : lookupKey data "content" = none) (hs : lookupKey data "status" = none)
    (hfk : db.users.any (fun u =>
        (lookupKey data "user_id").getD Json.null == Json.num u.id) = true) :
    (create_post (some data) noFaults db).resp.status = 201 ∧
    (create_post (some data) noFaults db).resp.body =
      Json.obj [("id", Json.num db.nextPostId),
                ("user_id", (lookupKey data "user_id").getD Json.null),
                ("title", (lookupKey data "title").getD Json.null),
                ("content", Json.str ""), ("status", Json.str "draft"),
                ("created_at", Json.num db.now)] ∧
    Json.objKeys (create_post (some data) noFaults db).resp.body =
      ["id", "user_id", "title", "content", "status", "created_at"] := by
  have hinv : invalidPayload2 (some data) "user_id" "title" = false := by
    simp [invalidPayload2, hasKey_isEmpty_false h1, h1, h2]
  refine ⟨?_, ?_, ?_⟩ <;>
    simp [create_post, hinv, noFaults, hfk, hc, hs, postCreateRow, Json.objKeys]

/-- C4 witness: creating a post for user 1 with only `user_id` and `title`
supplied yields a 201 whose body has the six expected keys with defaulted
content and status. -/
theorem create_post_defaults_and_shape_witness :
    (create_post (some [("user_id", Json.num 1), ("title", Json.str "hi")])
        noFaults dbOneUser).resp.status = 201 ∧
    (create_post (some [("user_id", Json.num 1), ("title", Json.str "hi")])
        noFaults dbOneUser).resp.body =
      Json.obj [("id", Json.num 1), ("user_id", Json.num 1),
                ("title", Json.str "hi"), ("content", Json.str ""),
                ("status", Json.str "draft"), ("created_at", Json.num 5)] ∧
    Json.objKeys (create_post (some [("user_id", Json.num 1), ("title", Json.str "hi")])
        noFaults dbOneUser).resp.body =
      ["id", "user_id", "title", "content", "status", "created_at"] :=
  create_post_defaults_and_shape [("user_id", Json.num 1), ("title", Json.str "hi")]
    dbOneUser rfl rfl rfl rfl rfl

/-- C9: create-post never checks that `user_id` names an existing user —
when the store's foreign-key constraint rejects the insert the handler
answers a generic 500 carrying the store's message, the store is unchanged;
and no create-post outcome whatsoever is a 409 conflict. -/
theorem create_post_fk_generic_500 (data : List (String × Json)) (db : DB)
    (h1 : hasKey data "user_id" = true) (h2 : hasKey data "title" = true)
    (hfk : db.users.any (fun u =>
        (lookupKey data "user_id").getD Json.null == Json.num u.id) = false) :
    create_post (some data) noFaults db =
      ⟨⟨500, errBody fkViolationMessage⟩, db, true, false⟩ ∧
    ∀ (payload : Option (List (String × Json))) (f : Faults) (db' : DB),
      (create_post payload f db').resp.status ≠ 409 := by
  constructor
  · have hinv : invalidPayload2 (some data) "user_id" "title" = false := by
      simp [invalidPayload2, hasKey_isEmpty_false h1, h1, h2]
    simp [create_post, hinv, noFaults, hfk]
  · intro payload f' db'
    obtain ⟨c, e⟩ := f'
    by_cases hv : invalidPayload2 payload "user_id" "title" <;>
      cases c <;> cases e <;> simp [create_post, hv]
    split <;> simp

/-- C9 witness: user identifier 42 resolves to no user, so the insert is
rejected by the store and surfaces as the generic 500, not a 409. -/
theorem create_post_fk_generic_500_witness :
    create_post (some [("user_id", Json.num 42), ("title", Json.str "t")])
        noFaults dbOneUser =
      ⟨⟨500, errBody fkViolationMessage⟩, dbOneUser, true, false⟩ ∧
    (create_post (some [("user_id", Json.num 42), ("title", Json.str "t")])
        noFaults dbOneUser).resp.status ≠ 409 :=
  ⟨(create_post_fk_generic_500 [("user_id", Json.num 42), ("title", Json.str "t")]
      dbOneUser rfl rfl rfl).1,
   (create_post_fk_generic_500 [("user_id", Json.num 42), ("title", Json.str "t")]
      dbOneUser rfl rfl rfl).2
     (some [("user_id", Json.num 42), ("title", Json.str "t")]) noFaults dbOneUser⟩

/-- Concrete fixture: an older post of user 1. -/
def postA : PostRow := ⟨1, Json.num 1, Json.str "a", Json.str "", Json.str "draft", 1⟩

/-- Concrete fixture: a newer post of user 1. -/
def postB : PostRow := ⟨2, Json.num 1, Json.str "b", Json.str "", Json.str "draft", 2⟩

/-- Concrete fixture: a store with `alice` and two of her posts, the older
one first in table order. -/
def dbTwoPosts : DB := ⟨[aliceRow], [postA, postB], 2, 3, 9⟩

/-- C6: list-posts and get-posts-by-user answer 200 with the (filtered)
posts table sorted by creation timestamp descending — the output is a
permutation of the queried rows, pairwise ordered so that a post created
strictly before another never precedes it — and each returned row carries
the left-joined `username` of the owner, `null` when no user row has the
owning identifier. -/
theorem posts_ordered_desc_with_join (db : DB) (uid : Nat) :
    (list_posts noFaults db).resp =
      ⟨200, Json.arr ((List.insertionSort createdAtDesc db.posts).map
        (postReadRow db.users))⟩ ∧
    (get_user_posts uid noFaults db).resp =
      ⟨200, Json.arr ((List.insertionSort createdAtDesc
        (db.posts.filter (fun p => p.user_id == Json.num uid))).map
        (postReadRow db.users))⟩ ∧
    (∀ l : List PostRow,
      (List.insertionSort createdAtDesc l).Sorted createdAtDesc ∧
      (List.insertionSort createdAtDesc l).Perm l) ∧
    (∀ (l : List PostRow) (i j : Fin (List.insertionSort createdAtDesc l).length),
      i < j →
      ((List.insertionSort createdAtDesc l).get j).created_at ≤
        ((List.insertionSort createdAtDesc l).get i).created_at) ∧
    (∀ (users : List UserRow) (p : PostRow),
      (postReadRow users p).getField "username" =
        some (match joinOwner users p with
              | some u => u.username
              | none => Json.null)) := by
  refine ⟨rfl, rfl,
    fun l => ⟨List.sorted_insertionSort createdAtDesc l,
              List.perm_insertionSort createdAtDesc l⟩,
    fun l i j hij => (List.sorted_insertionSort createdAtDesc l).rel_get_of_lt hij,
    fun users p => rfl⟩

/-- C6 witness: on a store whose table holds the older post first, the
response lists the newer post first, and in the sorted table the entry at
position 1 is no newer than the entry at position 0. -/
theorem posts_ordered_desc_with_join_witness :
    (list_posts noFaults dbTwoPosts).resp =
      ⟨200, Json.arr ((List.insertionSort createdAtDesc dbTwoPosts.posts).map
        (postReadRow dbTwoPosts.users))⟩ ∧
    ((List.insertionSort createdAtDesc dbTwoPosts.posts).get ⟨1, by decide⟩).created_at ≤
      ((List.insertionSort createdAtDesc dbTwoPosts.posts).get ⟨0, by decide⟩).created_at :=
  ⟨(posts_ordered_desc_with_join dbTwoPosts 1).1,
   (posts_ordered_desc_with_join dbTwoPosts 1).2.2.2.1 dbTwoPosts.posts
     ⟨0, by decide⟩ ⟨1, by decide⟩ (by decide)⟩
